import Mathlib

/-!
# Verification of the DAO member aggregation hook

A shallow embedding, in Lean 4, of `src/hooks/useDaoMembers.tsx`: the data
model (`DaoMember` and friends), the sort comparator `sortDaoMembers`, the
normalization functions (`sdkToDaoMember`, `parsedGraphqlData`), and the
aggregator `useDaoMembers` itself, modelled as a pure function of its inputs
plus an explicit snapshot of the external data sources (token metadata,
graph-index query, subgraph query, census delegate, on-chain balance read).

JavaScript strings are embedded as `List Char` (code-unit sequences);
JavaScript numbers produced by `Number(formatUnits(raw, decimals))` are
embedded as rationals `raw / 10 ^ decimals`.  `Array.prototype.sort` (stable
per ES2019) is embedded as Mathlib's stable `List.insertionSort` on the
relation "comparator result ≤ 0".
-/

/-- A JavaScript string, as its sequence of code units. -/
abbrev Str := List Char

/-- Embedding of `s.toLowerCase()` on a string. -/
def toLowerStr (s : Str) : Str := s.map Char.toLower

/-- Embedding of `addressA?.toLowerCase() === addressB?.toLowerCase()`: both sides may be
absent (`none`); two absent sides compare equal, an absent side never equals a
present one. -/
def compareAddresses (addressA addressB : Option Str) : Bool :=
  (addressA.map toLowerStr) == (addressB.map toLowerStr)

/-- JavaScript string comparison `a > b`: lexicographic on code units. -/
def strGt : Str → Str → Bool
  | [], _ => false
  | _ :: _, [] => true
  | a :: as, b :: bs => if a = b then strGt as bs else decide (b < a)

/-- Whether `needle` is a prefix of `hay` (helper for substring search). -/
def hasPfx : Str → Str → Bool
  | [], _ => true
  | _ :: _, [] => false
  | a :: as, b :: bs => a == b && hasPfx as bs

/-- JavaScript `hay.includes(needle)`: substring containment. -/
def containsSub (hay needle : Str) : Bool :=
  match hay with
  | [] => needle.isEmpty
  | _ :: t => hasPfx needle hay || containsSub t needle

/-- The union `DaoMember = MultisigDaoMember | TokenDaoMember`, tagged: a
record is a Token member iff it carries the balance/votingPower/delegation
fields. -/
inductive DaoMember where
  | multisig (address : Str)
  | token (address : Str) (balance : ℚ) (votingPower : ℚ)
      (delegatee : Str) (delegators : List Str)
  deriving DecidableEq

/-- The `address` field, common to both variants. -/
def DaoMember.address : DaoMember → Str
  | .multisig a => a
  | .token a _ _ _ _ => a

/-- The `delegators` field (`[]` for a multisig member, which has none). -/
def DaoMember.delegators : DaoMember → List Str
  | .multisig _ => []
  | .token _ _ _ _ ds => ds

/-- The test `'balance' in member`: runtime discrimination of the union. -/
def isTokenDaoMember : DaoMember → Bool
  | .multisig _ => false
  | .token _ _ _ _ _ => true

/-- The sort key `DaoMemberSort = 'delegations' | 'votingPower'`. -/
inductive DaoMemberSort where
  | delegations
  | votingPower
  deriving DecidableEq

/-- The comparator returned by `sortDaoMembers(sort, userAddress)`.  It
returns a number; only its sign (and zero) matter to the sort. -/
def sortDaoMembers (sort : Option DaoMemberSort) (userAddress : Option Str)
    (a b : DaoMember) : ℚ :=
  let isConnectedUserA := compareAddresses (some a.address) userAddress
  let isConnectedUserB := compareAddresses (some b.address) userAddress
  if isConnectedUserA || isConnectedUserB then
    if isConnectedUserA then -1 else 1
  else
    match a, b with
    | .token _ _ vpa _ delsa, .token _ _ vpb _ delsb =>
      let isDelegatorA := delsa.any fun d => compareAddresses (some d) userAddress
      let isDelegatorB := delsb.any fun d => compareAddresses (some d) userAddress
      if isDelegatorA || isDelegatorB then
        if isDelegatorA then -1 else 1
      else
        let delegatorsResult : ℚ := (delsb.length : ℚ) - (delsa.length : ℚ)
        let votingPowerResult : ℚ := vpb - vpa
        if sort = some DaoMemberSort.delegations then
          if delegatorsResult = 0 then votingPowerResult else delegatorsResult
        else votingPowerResult
    | _, _ => if strGt a.address b.address then 1 else -1

/-- Embedding of `Number(formatUnits(value, decimals))`: the raw integer scaled down by
the token's decimal precision, as an exact rational. -/
def formatUnits (value : Int) (decimals : Nat) : ℚ :=
  (value : ℚ) / (10 : ℚ) ^ decimals

/-- A delegator entry of an SDK `TokenVotingMember` (only its address is
used by the hook). -/
structure SdkDelegator where
  address : Str
  balance : Int
  deriving DecidableEq

/-- A subgraph entry: either a bare address string or a structured
`TokenVotingMember`. -/
inductive SdkMember where
  | plain (address : Str)
  | voting (address : Str) (balance : Int) (votingPower : Int)
      (delegatee : Option Str) (delegators : List SdkDelegator)
  deriving DecidableEq

/-- Embedding of `sdkToDaoMember(member, tokenDecimals = 0)`: normalize a subgraph entry
into a `DaoMember`. -/
def sdkToDaoMember (member : SdkMember) (tokenDecimals : Nat) : DaoMember :=
  match member with
  | .plain a => .multisig a
  | .voting address balance votingPower delegatee delegators =>
    .token address (formatUnits balance tokenDecimals)
      (formatUnits votingPower tokenDecimals)
      (delegatee.getD address)
      (delegators.map SdkDelegator.address)

/-- Token metadata resolved for the plugin (`Erc20TokenDetails`): only the
fields the hook reads. -/
structure Token where
  address : Str
  decimals : Nat
  deriving DecidableEq

/-- A holder record from the graph-index (covalent) holder-query service. -/
structure Holder where
  address : Str
  balance : Int
  votes : Int
  delegates : Str
  deriving DecidableEq

/-- The graph-index response page: `{holders: {holders, totalHolders}}`. -/
structure HoldersPage where
  holders : List Holder
  totalHolders : Nat
  deriving DecidableEq

/-- The outer graph-index response object, whose `holders` field holds the
page. -/
structure HoldersWrap where
  holders : HoldersPage
  deriving DecidableEq

/-- State of one reactive query: optional data plus error/loading flags. -/
structure QueryResult (α : Type) where
  data : Option α
  isError : Bool
  isLoading : Bool

/-- The record `DaoMembersData`: the result payload of the hook. -/
structure DaoMembersData where
  members : List DaoMember
  memberCount : Nat
  filteredMembers : List DaoMember
  daoToken : Option Token

/-- The envelope `HookData<T>`: payload plus loading/error flags. -/
structure HookData (α : Type) where
  data : α
  isLoading : Bool
  isError : Bool

/-- The options record `DaoMembersOptions`, all fields optional. -/
structure DaoMembersOptions where
  searchTerm : Option Str := none
  sort : Option DaoMemberSort := none
  page : Option Nat := none
  countOnly : Option Bool := none
  memberList : Option (List Str) := none
  enabled : Option Bool := none

/-- A snapshot of every external data source the hook reads reactively:
network and wallet context, resolved token metadata, the two query states,
the census delegate's result, and the on-chain `balanceOf` read. -/
structure Snapshot where
  network : Str
  wallet : Option Str
  daoToken : Option Token
  graphql : QueryResult HoldersWrap
  subgraph : QueryResult (List SdkMember)
  census3 : HookData DaoMembersData
  userBalance : Option Int

/-- The tag compared by `pluginType === 'token-voting.plugin.dao.eth'`. -/
def tokenVotingPluginTag : Str :=
  ['t','o','k','e','n','-','v','o','t','i','n','g','.','p','l','u','g','i','n',
   '.','d','a','o','.','e','t','h']

/-- Modelled from the spec: the gasless plugin-type tag (`GaslessPluginName`
is imported from the plugin-client module, which is outside the visible
sources); only its identity as a distinguished tag matters here. -/
def GaslessPluginName : Str :=
  ['v','o','c','d','o','n','i','-','g','a','s','l','e','s','s']

/-- The flag `isTokenBased`: the plugin type equals the token-voting tag. -/
def isTokenBased (pluginType : Option Str) : Bool :=
  pluginType == some tokenVotingPluginTag

/-- The flag `isGaslessBased`: the plugin type equals the gasless tag. -/
def isGaslessBased (pluginType : Option Str) : Bool :=
  pluginType == some GaslessPluginName

/-- The flag `covalentSupportedNetwork`: false exactly for the three denied
networks. -/
def covalentSupportedNetwork (network : Str) : Bool :=
  !(network == ['a','r','b','i','t','r','u','m'] ||
    network == ['b','a','s','e'] ||
    network == ['z','k','s','y','n','c','S','e','p','o','l','i','a'])

/-- The flag `useGraphql`: the graph-index query is enabled. -/
def useGraphql (pluginType : Option Str) (snap : Snapshot)
    (enabled : Bool) : Bool :=
  isTokenBased pluginType && covalentSupportedNetwork snap.network &&
    pluginType.isSome && snap.daoToken.isSome && enabled

/-- The flag `useSubgraph`: the subgraph path is selected (also as a fallback when
the graph-index query errored). -/
def useSubgraph (pluginType : Option Str) (network : Str)
    (isGraphqlError : Bool) : Bool :=
  (pluginType.isSome && !isTokenBased pluginType) ||
    !covalentSupportedNetwork network ||
    (covalentSupportedNetwork network && isGraphqlError)

/-- The list `parsedSubgraphData`: the subgraph entries (defaulting to `[]` when the
query holds no data) normalized with the token's decimals (the
`sdkToDaoMember` parameter default `0` applies when no token resolved). -/
def parsedSubgraphData (snap : Snapshot) : List DaoMember :=
  (snap.subgraph.data.getD []).map fun member =>
    sdkToDaoMember member ((snap.daoToken.map Token.decimals).getD 0)

/-- The graph-index holder page, `graphqlData?.holders.holders ?? []`. -/
def graphqlHolders (snap : Snapshot) : List Holder :=
  (snap.graphql.data.map fun w => w.holders.holders).getD []

/-- The value `userBalanceNumber = Number(formatUnits(userBalance?.[0] ?? '0',
daoToken?.decimals))`; `formatUnits` defaults to 18 decimals when the token
is unresolved. -/
def userBalanceNumber (snap : Snapshot) : ℚ :=
  formatUnits (snap.userBalance.getD 0) ((snap.daoToken.map Token.decimals).getD 18)

/-- The list `parsedGraphqlData`: each graph-index holder becomes a Token member;
its `delegators` are recomputed locally from the same page. -/
def parsedGraphqlData (snap : Snapshot) : List DaoMember :=
  (graphqlHolders snap).map fun member =>
    let tokenDecimals := (snap.daoToken.map Token.decimals).getD 18
    let delegators :=
      ((graphqlHolders snap).filter fun holder =>
        !compareAddresses (some holder.address) (some member.address) &&
          compareAddresses (some holder.delegates) (some member.address)).map
        Holder.address
    DaoMember.token member.address (formatUnits member.balance tokenDecimals)
      (formatUnits member.votes tokenDecimals) member.delegates delegators

/-- The selector `getCombinedData()`: subgraph data with the fallback-self-balance rule,
or the graph-index data. -/
def getCombinedData (pluginType : Option Str) (snap : Snapshot) : List DaoMember :=
  if useSubgraph pluginType snap.network snap.graphql.isError then
    if (snap.subgraph.data.getD []).length = 0 ∧ 0 < userBalanceNumber snap then
      [DaoMember.token (snap.wallet.getD []) (userBalanceNumber snap)
        (userBalanceNumber snap) (snap.wallet.getD []) []]
    else
      parsedSubgraphData snap
  else
    parsedGraphqlData snap

/-- Embedding of `[...xs].sort(cmp)`: stable sort by the sign of the comparator. -/
def sortList (cmp : DaoMember → DaoMember → ℚ) (l : List DaoMember) :
    List DaoMember :=
  List.insertionSort (fun a b => cmp a b ≤ 0) l

/-- The list `sortedData`: the combined list, sorted only when the `sort` option is
present (`opts?.sort ? [...getCombinedData()].sort(...) : getCombinedData()`). -/
def sortedData (pluginType : Option Str) (options : Option DaoMembersOptions)
    (snap : Snapshot) : List DaoMember :=
  match (options.getD {}).sort with
  | some s => sortList (sortDaoMembers (some s) snap.wallet)
      (getCombinedData pluginType snap)
  | none => getCombinedData pluginType snap

/-- The list `filteredData`, from `!searchTerm ? sortedData : sortedData.filter(...)`; the
empty search string is falsy in JavaScript, so it also yields `sortedData`. -/
def filteredData (pluginType : Option Str) (options : Option DaoMembersOptions)
    (snap : Snapshot) : List DaoMember :=
  match (options.getD {}).searchTerm with
  | none => sortedData pluginType options snap
  | some s =>
    if s.isEmpty then sortedData pluginType options snap
    else (sortedData pluginType options snap).filter fun member =>
      containsSub (toLowerStr member.address) (toLowerStr s)

/-- The aggregator `useDaoMembers(pluginAddress, pluginType, options)`, as a
pure function of the inputs and the snapshot of external sources.  It is
total: no exception escapes; every branch returns a well-formed envelope. -/
def useDaoMembers (_pluginAddress : Str) (pluginType : Option Str)
    (options : Option DaoMembersOptions) (snap : Snapshot) :
    HookData DaoMembersData :=
  let opts := options.getD {}
  let countOnly := opts.countOnly.getD false
  let enabled := opts.enabled.getD false || true
  let enableCensus3 := enabled && isGaslessBased pluginType
  if !enabled then
    { data := { members := [], memberCount := 0, filteredMembers := [],
                daoToken := none },
      isLoading := false, isError := false }
  else if enableCensus3 then
    snap.census3
  else if countOnly then
    let memberCount :=
      if useSubgraph pluginType snap.network snap.graphql.isError then
        (parsedSubgraphData snap).length
      else
        (snap.graphql.data.map fun w => w.holders.totalHolders).getD 0
    { data := { members := [], memberCount := memberCount,
                filteredMembers := [], daoToken := snap.daoToken },
      isLoading := snap.subgraph.isLoading && snap.graphql.isLoading,
      isError := snap.subgraph.isError || snap.graphql.isError }
  else
    let memberCount :=
      if useSubgraph pluginType snap.network snap.graphql.isError then
        (sortedData pluginType options snap).length
      else
        (snap.graphql.data.map fun w => w.holders.totalHolders).getD
          (sortedData pluginType options snap).length
    { data := { members := sortedData pluginType options snap,
                memberCount := memberCount,
                filteredMembers := filteredData pluginType options snap,
                daoToken := snap.daoToken },
      isLoading := snap.subgraph.isLoading && snap.graphql.isLoading,
      isError := snap.subgraph.isError || snap.graphql.isError }

/-! ## Helper lemmas and sample data -/

/-- The expression `opts?.enabled || true` evaluates to `true` for every value of the
`enabled` option, including an explicit `false`. -/
theorem enabledFlag_always_true (o : Option Bool) : (o.getD false || true) = true :=
  Bool.or_true _

/-- On every non-gasless path the returned flags are
`isLoading = subgraph.isLoading && graphql.isLoading` and
`isError = subgraph.isError || graphql.isError`. -/
theorem useDaoMembers_flags (pa : Str) (pluginType : Option Str)
    (options : Option DaoMembersOptions) (snap : Snapshot)
    (hGas : isGaslessBased pluginType = false) :
    (useDaoMembers pa pluginType options snap).isLoading =
      (snap.subgraph.isLoading && snap.graphql.isLoading) ∧
    (useDaoMembers pa pluginType options snap).isError =
      (snap.subgraph.isError || snap.graphql.isError) := by
  unfold useDaoMembers
  simp [hGas]
  split <;> simp

/-- On every non-gasless, non-count-only path the returned member list is
`sortedData` and the filtered list is `filteredData`. -/
theorem useDaoMembers_full_lists (pa : Str) (pluginType : Option Str)
    (options : Option DaoMembersOptions) (snap : Snapshot)
    (hGas : isGaslessBased pluginType = false)
    (hCount : (options.getD {}).countOnly.getD false = false) :
    (useDaoMembers pa pluginType options snap).data.members =
      sortedData pluginType options snap ∧
    (useDaoMembers pa pluginType options snap).data.filteredMembers =
      filteredData pluginType options snap := by
  unfold useDaoMembers
  simp [hGas, hCount]

/-- Sample address (used as the connected wallet in witnesses). -/
def adrA : Str := ['0','x','a','a']

/-- Sample address. -/
def adrB : Str := ['0','x','b','b']

/-- Sample address. -/
def adrC : Str := ['0','x','c','c']

/-- A non-token, non-gasless plugin type tag (multisig-style). -/
def multisigTag : Str := ['m','u','l','t','i','s','i','g']

/-- An idle empty census-delegate result, for snapshots that never take the
gasless path. -/
def census3Idle : HookData DaoMembersData :=
  { data := { members := [], memberCount := 0, filteredMembers := [],
              daoToken := none },
    isLoading := false, isError := false }

/-- A snapshot whose subgraph query returned exactly one bare-address
member, with nothing loading or erroring. -/
def snapOneSubgraphMember : Snapshot :=
  { network := ['g'], wallet := none, daoToken := none,
    graphql := { data := none, isError := false, isLoading := false },
    subgraph := { data := some [SdkMember.plain adrB],
                  isError := false, isLoading := false },
    census3 := census3Idle,
    userBalance := none }

/-- A snapshot with mixed loading/error flags: the subgraph query is loading,
the graph-index query has errored. -/
def snapMixedFlags : Snapshot :=
  { network := ['g'], wallet := none, daoToken := none,
    graphql := { data := none, isError := true, isLoading := false },
    subgraph := { data := some [SdkMember.plain adrB],
                  isError := false, isLoading := true },
    census3 := census3Idle,
    userBalance := none }

/-! ## Claims -/

/-- C1: the claim asserts that `options.enabled = false` short-circuits the
hook to the empty envelope (`members = []`, `filteredMembers = []`,
`memberCount = 0`, not loading, not erroring) before any other branch.  The
code computes `enabled` as `opts?.enabled || true`, which is `true` even for
an explicit `false` (the spec itself flags this as a logic defect that `??`
would fix), so the short-circuit branch is unreachable: with
`enabled: false` and a one-entry subgraph snapshot the hook still returns a
full one-member envelope with `memberCount = 1`. -/
theorem C1_enabled_false_still_full_envelope :
    (useDaoMembers ['p'] (some multisigTag)
      (some { enabled := some false }) snapOneSubgraphMember).data.members =
      [DaoMember.multisig adrB] ∧
    (useDaoMembers ['p'] (some multisigTag)
      (some { enabled := some false }) snapOneSubgraphMember).data.memberCount
      = 1 := by
  decide

/-- C9: on every non-gasless return path (count-only and full), the envelope's
`isLoading` equals subgraph-loading AND graph-index-loading, and `isError`
equals subgraph-error OR graph-index-error; the aggregator is a total
function, so no exception escapes it. -/
theorem C9_loading_error_flags (pa : Str) (pluginType : Option Str)
    (options : Option DaoMembersOptions) (snap : Snapshot)
    (hGas : isGaslessBased pluginType = false) :
    (useDaoMembers pa pluginType options snap).isLoading =
      (snap.subgraph.isLoading && snap.graphql.isLoading) ∧
    (useDaoMembers pa pluginType options snap).isError =
      (snap.subgraph.isError || snap.graphql.isError) :=
  useDaoMembers_flags pa pluginType options snap hGas

/-- Witness for C9 at a concrete snapshot (subgraph loading, graph-index
errored). -/
theorem C9_loading_error_flags_witness :
    isGaslessBased (some multisigTag) = false ∧
    ((useDaoMembers ['p'] (some multisigTag) none snapMixedFlags).isLoading =
      (snapMixedFlags.subgraph.isLoading && snapMixedFlags.graphql.isLoading) ∧
    (useDaoMembers ['p'] (some multisigTag) none snapMixedFlags).isError =
      (snapMixedFlags.subgraph.isError || snapMixedFlags.graphql.isError)) :=
  ⟨by decide,
   C9_loading_error_flags ['p'] (some multisigTag) none snapMixedFlags
     (by decide)⟩

/-- C8: with `countOnly = true` on a non-gasless call, the envelope has empty
`members` and `filteredMembers`, carries `daoToken`, and its `memberCount` is
the normalized subgraph list length when the subgraph path is active,
otherwise the graph-index service's reported total holder count. -/
theorem C8_countOnly_envelope (pa : Str) (pluginType : Option Str)
    (options : Option DaoMembersOptions) (snap : Snapshot)
    (hGas : isGaslessBased pluginType = false)
    (hCount : (options.getD {}).countOnly.getD false = true) :
    (useDaoMembers pa pluginType options snap).data.members = [] ∧
    (useDaoMembers pa pluginType options snap).data.filteredMembers = [] ∧
    (useDaoMembers pa pluginType options snap).data.daoToken = snap.daoToken ∧
    (useSubgraph pluginType snap.network snap.graphql.isError = true →
      (useDaoMembers pa pluginType options snap).data.memberCount =
        (parsedSubgraphData snap).length) ∧
    (∀ w, useSubgraph pluginType snap.network snap.graphql.isError = false →
      snap.graphql.data = some w →
      (useDaoMembers pa pluginType options snap).data.memberCount =
        w.holders.totalHolders) := by
  unfold useDaoMembers
  simp [hGas, hCount]
  constructor
  · intro h
    simp [h]
  · intro w h hw
    simp [h, hw]

theorem containsSub_nil_needle (hay : Str) : containsSub hay [] = true := by
  cases hay <;> simp [containsSub, hasPfx]

theorem sortList_singleton (cmp : DaoMember → DaoMember → ℚ) (x : DaoMember) :
    sortList cmp [x] = [x] := rfl

/-- C7: on the non-gasless, non-count-only path, `filteredMembers` is a
sublist of `members`; with a search term supplied it equals `members`
restricted to addresses containing the term as a case-insensitive substring,
and with no search term it is identical to `members`. -/
theorem C7_filtered_sublist (pa : Str) (pluginType : Option Str)
    (options : Option DaoMembersOptions) (snap : Snapshot)
    (hGas : isGaslessBased pluginType = false)
    (hCount : (options.getD {}).countOnly.getD false = false) :
    List.Sublist
      (useDaoMembers pa pluginType options snap).data.filteredMembers
      (useDaoMembers pa pluginType options snap).data.members ∧
    ((options.getD {}).searchTerm = none →
      (useDaoMembers pa pluginType options snap).data.filteredMembers =
        (useDaoMembers pa pluginType options snap).data.members) ∧
    (∀ s, (options.getD {}).searchTerm = some s →
      (useDaoMembers pa pluginType options snap).data.filteredMembers =
        (useDaoMembers pa pluginType options snap).data.members.filter
          fun member => containsSub (toLowerStr member.address) (toLowerStr s)) := by
  obtain ⟨hm, hf⟩ := useDaoMembers_full_lists pa pluginType options snap hGas hCount
  rw [hm, hf]
  unfold filteredData
  cases hst : (options.getD {}).searchTerm with
  | none =>
    exact ⟨List.Sublist.refl _, fun _ => rfl, fun s hs => by cases hs⟩
  | some s =>
    cases s with
    | nil =>
      simp only [List.isEmpty_nil, if_true]
      refine ⟨List.Sublist.refl _, fun h => Option.noConfusion h, fun t ht => ?_⟩
      obtain rfl := (Option.some.inj ht).symm
      have hall : ∀ m ∈ sortedData pluginType options snap,
          containsSub (toLowerStr m.address) (toLowerStr []) = true :=
        fun m _ => containsSub_nil_needle _
      exact (List.filter_eq_self.mpr hall).symm
    | cons c t =>
      simp only [List.isEmpty_cons, if_false, Bool.false_eq_true]
      refine ⟨List.filter_sublist _, fun h => Option.noConfusion h, fun u hu => ?_⟩
      obtain rfl := Option.some.inj hu
      rfl

/-- Options carrying only a search term. -/
def optsSearch : DaoMembersOptions := { searchTerm := some ['x','a'] }

/-- A snapshot whose subgraph query returned two bare-address members. -/
def snapTwoSubgraphMembers : Snapshot :=
  { network := ['g'], wallet := none, daoToken := none,
    graphql := { data := none, isError := false, isLoading := false },
    subgraph := { data := some [SdkMember.plain adrB, SdkMember.plain adrA],
                  isError := false, isLoading := false },
    census3 := census3Idle,
    userBalance := none }

/-- Witness for C7 at a concrete snapshot and search term. -/
theorem C7_filtered_sublist_witness :
    isGaslessBased (some multisigTag) = false ∧
    (((some optsSearch : Option DaoMembersOptions)).getD
        {}).countOnly.getD false = false ∧
    (List.Sublist
      (useDaoMembers ['p'] (some multisigTag) (some optsSearch)
        snapTwoSubgraphMembers).data.filteredMembers
      (useDaoMembers ['p'] (some multisigTag) (some optsSearch)
        snapTwoSubgraphMembers).data.members ∧
    ((((some optsSearch : Option DaoMembersOptions)).getD {}).searchTerm = none →
      (useDaoMembers ['p'] (some multisigTag) (some optsSearch)
        snapTwoSubgraphMembers).data.filteredMembers =
        (useDaoMembers ['p'] (some multisigTag) (some optsSearch)
          snapTwoSubgraphMembers).data.members) ∧
    (∀ s, (((some optsSearch : Option DaoMembersOptions)).getD
        {}).searchTerm = some s →
      (useDaoMembers ['p'] (some multisigTag) (some optsSearch)
        snapTwoSubgraphMembers).data.filteredMembers =
        (useDaoMembers ['p'] (some multisigTag) (some optsSearch)
          snapTwoSubgraphMembers).data.members.filter
          fun member => containsSub (toLowerStr member.address) (toLowerStr s))) :=
  ⟨by decide, by decide,
   C7_filtered_sublist ['p'] (some multisigTag) (some optsSearch)
     snapTwoSubgraphMembers (by decide) (by decide)⟩

/-- Options carrying only `countOnly: true`. -/
def optsCountOnly : DaoMembersOptions := { countOnly := some true }

/-- Witness for C8 at a concrete snapshot (subgraph path, one member). -/
theorem C8_countOnly_envelope_witness :
    isGaslessBased (some multisigTag) = false ∧
    (((some optsCountOnly : Option DaoMembersOptions)).getD
        {}).countOnly.getD false = true ∧
    ((useDaoMembers ['p'] (some multisigTag) (some optsCountOnly)
        snapOneSubgraphMember).data.members = [] ∧
    (useDaoMembers ['p'] (some multisigTag) (some optsCountOnly)
        snapOneSubgraphMember).data.filteredMembers = [] ∧
    (useDaoMembers ['p'] (some multisigTag) (some optsCountOnly)
        snapOneSubgraphMember).data.daoToken = snapOneSubgraphMember.daoToken ∧
    (useSubgraph (some multisigTag) snapOneSubgraphMember.network
        snapOneSubgraphMember.graphql.isError = true →
      (useDaoMembers ['p'] (some multisigTag) (some optsCountOnly)
          snapOneSubgraphMember).data.memberCount =
        (parsedSubgraphData snapOneSubgraphMember).length) ∧
    (∀ w, useSubgraph (some multisigTag) snapOneSubgraphMember.network
        snapOneSubgraphMember.graphql.isError = false →
      snapOneSubgraphMember.graphql.data = some w →
      (useDaoMembers ['p'] (some multisigTag) (some optsCountOnly)
          snapOneSubgraphMember).data.memberCount = w.holders.totalHolders)) :=
  ⟨by decide, by decide,
   C8_countOnly_envelope ['p'] (some multisigTag) (some optsCountOnly)
     snapOneSubgraphMember (by decide) (by decide)⟩
/-- Under the subgraph path with an empty member snapshot and a positive
scaled wallet balance, `getCombinedData` synthesizes the single
fallback-self member. -/
theorem getCombinedData_fallback (pluginType : Option Str) (snap : Snapshot)
    (w : Str) (tok : Token) (raw : Int)
    (hSub : useSubgraph pluginType snap.network snap.graphql.isError = true)
    (hEmpty : snap.subgraph.data.getD [] = [])
    (hWallet : snap.wallet = some w)
    (hTok : snap.daoToken = some tok)
    (hBal : snap.userBalance = some raw)
    (hPos : 0 < raw) :
    getCombinedData pluginType snap =
      [DaoMember.token w (formatUnits raw tok.decimals)
        (formatUnits raw tok.decimals) w []] := by
  have hq : userBalanceNumber snap = formatUnits raw tok.decimals := by
    unfold userBalanceNumber
    rw [hTok, hBal]
    rfl
  have hqpos : 0 < formatUnits raw tok.decimals := by
    unfold formatUnits
    apply div_pos
    · exact_mod_cast hPos
    · positivity
  unfold getCombinedData
  rw [hSub, hEmpty, hWallet, hq]
  simp [hqpos]

/-- On the non-gasless, non-count-only subgraph path with an empty subgraph
snapshot and a positive scaled wallet balance, the returned member list is
exactly the synthesized fallback-self member. -/
theorem useDaoMembers_members_fallback (pa : Str) (pluginType : Option Str)
    (options : Option DaoMembersOptions) (snap : Snapshot)
    (w : Str) (tok : Token) (raw : Int)
    (hGas : isGaslessBased pluginType = false)
    (hCount : (options.getD {}).countOnly.getD false = false)
    (hSub : useSubgraph pluginType snap.network snap.graphql.isError = true)
    (hEmpty : snap.subgraph.data.getD [] = [])
    (hWallet : snap.wallet = some w)
    (hTok : snap.daoToken = some tok)
    (hBal : snap.userBalance = some raw)
    (hPos : 0 < raw) :
    (useDaoMembers pa pluginType options snap).data.members =
      [DaoMember.token w (formatUnits raw tok.decimals)
        (formatUnits raw tok.decimals) w []] := by
  obtain ⟨hm, -⟩ := useDaoMembers_full_lists pa pluginType options snap hGas hCount
  rw [hm]
  unfold sortedData
  cases hs : (options.getD {}).sort with
  | none =>
    exact getCombinedData_fallback pluginType snap w tok raw hSub hEmpty
      hWallet hTok hBal hPos
  | some s =>
    rw [getCombinedData_fallback pluginType snap w tok raw hSub hEmpty
      hWallet hTok hBal hPos]
    exact sortList_singleton _ _

/-- C2: on the subgraph path, when the subgraph member snapshot is empty and
the connected wallet's on-chain balance is positive, the non-count-only
result's member list is exactly one Token member for the wallet: balance and
votingPower are the raw on-chain balance scaled by the token's decimals,
the delegatee is the wallet itself and the delegators list is empty. -/
theorem C2_subgraph_fallback_member (pa : Str) (pluginType : Option Str)
    (options : Option DaoMembersOptions) (snap : Snapshot)
    (w : Str) (tok : Token) (raw : Int)
    (hGas : isGaslessBased pluginType = false)
    (hCount : (options.getD {}).countOnly.getD false = false)
    (hSub : useSubgraph pluginType snap.network snap.graphql.isError = true)
    (hEmpty : snap.subgraph.data.getD [] = [])
    (hWallet : snap.wallet = some w)
    (hTok : snap.daoToken = some tok)
    (hBal : snap.userBalance = some raw)
    (hPos : 0 < raw) :
    (useDaoMembers pa pluginType options snap).data.members =
      [DaoMember.token w (formatUnits raw tok.decimals)
        (formatUnits raw tok.decimals) w []] :=
  useDaoMembers_members_fallback pa pluginType options snap w tok raw
    hGas hCount hSub hEmpty hWallet hTok hBal hPos

/-- The DAO token used by the fallback witnesses: zero decimals. -/
def tok0 : Token := { address := adrB, decimals := 0 }

/-- A snapshot matching the spec's fallback example: empty subgraph list,
wallet balance 150 at zero decimals. -/
def snapFallback : Snapshot :=
  { network := ['g'], wallet := some adrA, daoToken := some tok0,
    graphql := { data := none, isError := false, isLoading := false },
    subgraph := { data := some [], isError := false, isLoading := false },
    census3 := census3Idle,
    userBalance := some 150 }

/-- Witness for C2: balance 150 at decimals 0 yields the single member with
balance 150 and votingPower 150. -/
theorem C2_subgraph_fallback_member_witness :
    isGaslessBased (some multisigTag) = false ∧
    ((none : Option DaoMembersOptions).getD {}).countOnly.getD false = false ∧
    useSubgraph (some multisigTag) snapFallback.network
      snapFallback.graphql.isError = true ∧
    snapFallback.subgraph.data.getD [] = [] ∧
    snapFallback.wallet = some adrA ∧
    snapFallback.daoToken = some tok0 ∧
    snapFallback.userBalance = some 150 ∧
    (0 : Int) < 150 ∧
    (useDaoMembers ['p'] (some multisigTag) none snapFallback).data.members =
      [DaoMember.token adrA (formatUnits 150 tok0.decimals)
        (formatUnits 150 tok0.decimals) adrA []] ∧
    formatUnits 150 tok0.decimals = 150 :=
  ⟨by decide, by decide, by decide, by decide, by decide, by decide, by decide,
   by decide,
   C2_subgraph_fallback_member ['p'] (some multisigTag) none snapFallback
     adrA tok0 150 (by decide) (by decide) (by decide) (by decide) (by decide)
     (by decide) (by decide) (by decide),
   by norm_num [formatUnits, tok0]⟩

/-- C10: the fallback-self member is synthesized from the *defaulted*
subgraph snapshot (`data ?? []`), so a subgraph query that holds no data yet
— still loading, or errored — combined with a positive wallet balance still
yields the one-member list, with the loading/error flags passed through
(`isLoading = subgraph && graphql`, `isError = subgraph || graphql`). -/
theorem C10_fallback_while_loading_or_errored (pa : Str)
    (pluginType : Option Str) (options : Option DaoMembersOptions)
    (snap : Snapshot) (w : Str) (tok : Token) (raw : Int)
    (hGas : isGaslessBased pluginType = false)
    (hCount : (options.getD {}).countOnly.getD false = false)
    (hSub : useSubgraph pluginType snap.network snap.graphql.isError = true)
    (hNoData : snap.subgraph.data = none)
    (hWallet : snap.wallet = some w)
    (hTok : snap.daoToken = some tok)
    (hBal : snap.userBalance = some raw)
    (hPos : 0 < raw) :
    (useDaoMembers pa pluginType options snap).data.members =
      [DaoMember.token w (formatUnits raw tok.decimals)
        (formatUnits raw tok.decimals) w []] ∧
    (useDaoMembers pa pluginType options snap).isLoading =
      (snap.subgraph.isLoading && snap.graphql.isLoading) ∧
    (useDaoMembers pa pluginType options snap).isError =
      (snap.subgraph.isError || snap.graphql.isError) := by
  have hEmpty : snap.subgraph.data.getD [] = [] := by rw [hNoData]; rfl
  exact ⟨useDaoMembers_members_fallback pa pluginType options snap w tok raw
      hGas hCount hSub hEmpty hWallet hTok hBal hPos,
    useDaoMembers_flags pa pluginType options snap hGas⟩

/-- A snapshot where the subgraph query has errored (no data) while the
wallet still holds a positive balance. -/
def snapFallbackErrored : Snapshot :=
  { network := ['g'], wallet := some adrA, daoToken := some tok0,
    graphql := { data := none, isError := false, isLoading := false },
    subgraph := { data := none, isError := true, isLoading := false },
    census3 := census3Idle,
    userBalance := some 150 }

/-- Witness for C10: an errored subgraph query with no data still yields the
one-member fallback list, and the envelope reports the error. -/
theorem C10_fallback_while_loading_or_errored_witness :
    isGaslessBased (some multisigTag) = false ∧
    ((none : Option DaoMembersOptions).getD {}).countOnly.getD false = false ∧
    useSubgraph (some multisigTag) snapFallbackErrored.network
      snapFallbackErrored.graphql.isError = true ∧
    snapFallbackErrored.subgraph.data = none ∧
    snapFallbackErrored.wallet = some adrA ∧
    snapFallbackErrored.daoToken = some tok0 ∧
    snapFallbackErrored.userBalance = some 150 ∧
    (0 : Int) < 150 ∧
    ((useDaoMembers ['p'] (some multisigTag) none
        snapFallbackErrored).data.members =
      [DaoMember.token adrA (formatUnits 150 tok0.decimals)
        (formatUnits 150 tok0.decimals) adrA []] ∧
    (useDaoMembers ['p'] (some multisigTag) none
        snapFallbackErrored).isLoading =
      (snapFallbackErrored.subgraph.isLoading &&
        snapFallbackErrored.graphql.isLoading) ∧
    (useDaoMembers ['p'] (some multisigTag) none
        snapFallbackErrored).isError =
      (snapFallbackErrored.subgraph.isError ||
        snapFallbackErrored.graphql.isError)) :=
  ⟨by decide, by decide, by decide, by decide, by decide, by decide, by decide,
   by decide,
   C10_fallback_while_loading_or_errored ['p'] (some multisigTag) none
     snapFallbackErrored adrA tok0 150 (by decide) (by decide) (by decide)
     (by decide) (by decide) (by decide) (by decide) (by decide)⟩

/-- The delegator rule as the claim states it: addresses of all other
holders on the page (case-insensitively different address) whose
`delegates` field case-insensitively equals the given address. -/
def pageDelegators (page : List Holder) (self : Str) : List Str :=
  (page.filter fun holder =>
    !compareAddresses (some holder.address) (some self) &&
      compareAddresses (some holder.delegates) (some self)).map Holder.address

/-- C3: every member normalized from the graph-index page has as its
`delegators` exactly the addresses of the other holders of the same page
(case-insensitively different address) whose `delegates` field
case-insensitively equals this holder's address. -/
theorem C3_graphql_delegators (snap : Snapshot) (i : Nat) (self : Holder)
    (hSelf : (graphqlHolders snap)[i]? = some self) :
    ((parsedGraphqlData snap)[i]?).map DaoMember.delegators =
      some (pageDelegators (graphqlHolders snap) self.address) := by
  unfold parsedGraphqlData
  rw [List.getElem?_map _ _ i, hSelf]
  rfl

/-- Holder A of the spec's example page: delegates to B. -/
def holderA : Holder := { address := adrA, balance := 1, votes := 1,
                          delegates := adrB }

/-- Holder B of the spec's example page: self-delegates. -/
def holderB : Holder := { address := adrB, balance := 2, votes := 2,
                          delegates := adrB }

/-- A snapshot whose graph-index page is `[{A, delegates: B},
{B, delegates: B}]`. -/
def snapGraphqlPage : Snapshot :=
  { network := ['g'], wallet := none, daoToken := some tok0,
    graphql := { data := some { holders := { holders := [holderA, holderB],
                                             totalHolders := 2 } },
                 isError := false, isLoading := false },
    subgraph := { data := none, isError := false, isLoading := false },
    census3 := census3Idle,
    userBalance := none }

/-- Witness for C3 at the spec's example page: the member for B has
delegators exactly `[A]` (self-delegation excluded). -/
theorem C3_graphql_delegators_witness :
    (graphqlHolders snapGraphqlPage)[1]? = some holderB ∧
    ((parsedGraphqlData snapGraphqlPage)[1]?).map DaoMember.delegators =
      some (pageDelegators (graphqlHolders snapGraphqlPage) holderB.address) ∧
    pageDelegators (graphqlHolders snapGraphqlPage) holderB.address = [adrA] :=
  ⟨by decide,
   C3_graphql_delegators snapGraphqlPage 1 holderB (by decide),
   by decide⟩
/-- A member at the connected address never sorts after anything: the
comparator returns `-1` whenever its first argument is the connected user. -/
theorem sortDaoMembers_connected_le (s : Option DaoMemberSort) (u : Option Str)
    (x y : DaoMember) (hx : compareAddresses (some x.address) u = true) :
    sortDaoMembers s u x y ≤ 0 := by
  unfold sortDaoMembers
  simp [hx]

/-- A non-connected member never sorts before the connected user. -/
theorem sortDaoMembers_nonconnected_gt (s : Option DaoMemberSort)
    (u : Option Str) (x y : DaoMember)
    (hx : compareAddresses (some x.address) u = false)
    (hy : compareAddresses (some y.address) u = true) :
    ¬ sortDaoMembers s u x y ≤ 0 := by
  unfold sortDaoMembers
  simp [hx, hy]

/-- Inserting into a list whose head is at the connected address, or
inserting such a member itself, leaves a connected head. -/
theorem orderedInsert_head_connected (s : Option DaoMemberSort) (u : Str)
    (x : DaoMember) (l : List DaoMember)
    (h : compareAddresses (some x.address) (some u) = true ∨
      ∃ m rest, l = m :: rest ∧
        compareAddresses (some m.address) (some u) = true) :
    ∃ m rest,
      List.orderedInsert (fun a b => sortDaoMembers s (some u) a b ≤ 0) x l =
        m :: rest ∧
      compareAddresses (some m.address) (some u) = true := by
  cases l with
  | nil =>
    rcases h with hx | ⟨m, rest, hmr, -⟩
    · exact ⟨x, [], rfl, hx⟩
    · cases hmr
  | cons y ys =>
    by_cases hr : sortDaoMembers s (some u) x y ≤ 0
    · refine ⟨x, y :: ys, by simp [List.orderedInsert, hr], ?_⟩
      by_cases hx : compareAddresses (some x.address) (some u) = true
      · exact hx
      · rcases h with hx2 | ⟨m, rest, hmr, hmc⟩
        · exact absurd hx2 hx
        · injection hmr with h1 h2
          subst h1
          exact absurd hr (sortDaoMembers_nonconnected_gt s (some u) x y
            (Bool.eq_false_iff.mpr hx) hmc)
    · refine ⟨y, List.orderedInsert
          (fun a b => sortDaoMembers s (some u) a b ≤ 0) x ys,
          by simp [List.orderedInsert, hr], ?_⟩
      rcases h with hx | ⟨m, rest, hmr, hmc⟩
      · exact absurd (sortDaoMembers_connected_le s (some u) x y hx) hr
      · injection hmr with h1 h2
        subst h1
        exact hmc

/-- If the list contains a member at the connected address, the stable
insertion sort by the comparator puts a member at that address first. -/
theorem insertionSort_head_connected (s : Option DaoMemberSort) (u : Str)
    (l : List DaoMember)
    (h : ∃ m ∈ l, compareAddresses (some m.address) (some u) = true) :
    ∃ m rest,
      List.insertionSort (fun a b => sortDaoMembers s (some u) a b ≤ 0) l =
        m :: rest ∧
      compareAddresses (some m.address) (some u) = true := by
  induction l with
  | nil => obtain ⟨m, hm, -⟩ := h; cases hm
  | cons x xs ih =>
    obtain ⟨m, hm, hmc⟩ := h
    rcases List.mem_cons.mp hm with rfl | hmem
    · exact orderedInsert_head_connected s u m
        (List.insertionSort _ xs) (Or.inl hmc)
    · obtain ⟨m2, rest2, hsort, hc2⟩ := ih ⟨m, hmem, hmc⟩
      exact orderedInsert_head_connected s u x
        (List.insertionSort _ xs) (Or.inr ⟨m2, rest2, hsort, hc2⟩)

/-- C4: for every sort key and every member list containing a member whose
address case-insensitively equals the connected wallet's address, the sorted
list starts with a member at that address (the connected user is pinned to
the top). -/
theorem C4_connected_user_first (s : Option DaoMemberSort) (u : Str)
    (l : List DaoMember)
    (h : ∃ m ∈ l, compareAddresses (some m.address) (some u) = true) :
    ∃ m rest, sortList (sortDaoMembers s (some u)) l = m :: rest ∧
      compareAddresses (some m.address) (some u) = true :=
  insertionSort_head_connected s u l h

/-- The connected wallet address in upper case, to exercise the
case-insensitive pinning. -/
def adrAUpper : Str := ['0','x','A','A']

/-- Witness for C4: a two-member list containing the wallet (written in a
different case) sorts with that member first. -/
theorem C4_connected_user_first_witness :
    (∃ m ∈ [DaoMember.multisig adrB, DaoMember.token adrA 1 1 adrA []],
      compareAddresses (some m.address) (some adrAUpper) = true) ∧
    (∃ m rest,
      sortList (sortDaoMembers (some DaoMemberSort.votingPower)
          (some adrAUpper))
        [DaoMember.multisig adrB, DaoMember.token adrA 1 1 adrA []] =
        m :: rest ∧
      compareAddresses (some m.address) (some adrAUpper) = true) :=
  ⟨by decide,
   C4_connected_user_first (some DaoMemberSort.votingPower) adrAUpper
     [DaoMember.multisig adrB, DaoMember.token adrA 1 1 adrA []]
     (by decide)⟩
/-- C5: under the `delegations` sort key, for two Token members neither of
which is the connected user and neither of which has the connected address
among its delegators, the one with strictly more delegators sorts first
(comparator negative), and on equal delegator counts the one with strictly
higher voting power sorts first. -/
theorem C5_delegations_comparator (u : Option Str) (aA bA : Str)
    (aBal bBal aVp bVp : ℚ) (aDel bDel : Str) (aDs bDs : List Str)
    (hA : compareAddresses (some aA) u = false)
    (hB : compareAddresses (some bA) u = false)
    (hDa : (aDs.any fun d => compareAddresses (some d) u) = false)
    (hDb : (bDs.any fun d => compareAddresses (some d) u) = false) :
    (bDs.length < aDs.length →
      sortDaoMembers (some DaoMemberSort.delegations) u
        (DaoMember.token aA aBal aVp aDel aDs)
        (DaoMember.token bA bBal bVp bDel bDs) < 0) ∧
    (aDs.length = bDs.length → bVp < aVp →
      sortDaoMembers (some DaoMemberSort.delegations) u
        (DaoMember.token aA aBal aVp aDel aDs)
        (DaoMember.token bA bBal bVp bDel bDs) < 0) := by
  unfold sortDaoMembers
  simp only [DaoMember.address, hA, hB, hDa, hDb, Bool.or_self,
    Bool.false_eq_true, if_false, ite_false, reduceIte]
  constructor
  · intro hlen
    have hcast : (bDs.length : ℚ) < (aDs.length : ℚ) := by exact_mod_cast hlen
    rw [if_neg (by intro heq; have := sub_eq_zero.mp heq; linarith)]
    linarith
  · intro hlen hvp
    rw [if_pos (by rw [hlen]; ring)]
    linarith

/-- Witness for C5 at concrete members (connected wallet C, members A and B
with 2 and 1 delegators). -/
theorem C5_delegations_comparator_witness :
    compareAddresses (some adrA) (some adrC) = false ∧
    compareAddresses (some adrB) (some adrC) = false ∧
    (([adrB, adrA].any fun d => compareAddresses (some d) (some adrC)) =
      false) ∧
    (([adrB].any fun d => compareAddresses (some d) (some adrC)) = false) ∧
    (([adrB].length < [adrB, adrA].length →
      sortDaoMembers (some DaoMemberSort.delegations) (some adrC)
        (DaoMember.token adrA 5 5 adrA [adrB, adrA])
        (DaoMember.token adrB 9 9 adrB [adrB]) < 0) ∧
    ([adrB, adrA].length = [adrB].length → (9 : ℚ) < 5 →
      sortDaoMembers (some DaoMemberSort.delegations) (some adrC)
        (DaoMember.token adrA 5 5 adrA [adrB, adrA])
        (DaoMember.token adrB 9 9 adrB [adrB]) < 0)) :=
  ⟨by decide, by decide, by decide, by decide,
   C5_delegations_comparator (some adrC) adrA adrB 5 9 5 9 adrA adrB
     [adrB, adrA] [adrB] (by decide) (by decide) (by decide) (by decide)⟩
/-- Counterexample to C6.  First two conjuncts: for Basic members with
addresses "0xa" and "0xAB", the lowercased address "0xa" is lexicographically
strictly below "0xab", so a case-insensitive ascending comparison must put
"0xa" first (negative result); the comparator instead returns `1` — the
fallback compares raw code units, where lowercase letters sort after
uppercase.  Third conjunct: the comparator at two equal Basic members
returns `-1`, i.e. it claims each strictly precedes itself, so the induced
relation is not a total order. -/
theorem C6_counterexample :
    sortDaoMembers none none (DaoMember.multisig ['0','x','a'])
      (DaoMember.multisig ['0','x','A','B']) = 1 ∧
    strGt (toLowerStr ['0','x','A','B']) (toLowerStr ['0','x','a']) = true ∧
    sortDaoMembers none none (DaoMember.multisig ['0','x','a'])
      (DaoMember.multisig ['0','x','a']) = -1 := by
  decide

/-- C6 amended: when at least one compared member is Basic and neither is
the connected user, the comparator falls back to an ascending *case-sensitive*
lexicographic comparison of the raw address strings, returning `1` when
`a.address > b.address` and `-1` otherwise (never `0`, so ties are ordered
inconsistently and the comparator is not a total order); the connected-user
and delegator checks elsewhere in the comparator are case-insensitive. -/
theorem C6_amended_basic_fallback (s : Option DaoMemberSort) (u : Option Str)
    (a b : DaoMember)
    (hBasic : isTokenDaoMember a = false ∨ isTokenDaoMember b = false)
    (hA : compareAddresses (some a.address) u = false)
    (hB : compareAddresses (some b.address) u = false) :
    sortDaoMembers s u a b =
      if strGt a.address b.address then 1 else -1 := by
  unfold sortDaoMembers
  simp only [hA, hB, Bool.or_self, Bool.false_eq_true, if_false, ite_false,
    reduceIte]
  cases a with
  | multisig aA => cases b <;> rfl
  | token aA aBal aVp aDel aDs =>
    cases b with
    | multisig bA => rfl
    | token bA bBal bVp bDel bDs => simp [isTokenDaoMember] at hBasic

/-- Witness for the amended C6 at a Basic/Token pair with no connected
wallet. -/
theorem C6_amended_basic_fallback_witness :
    (isTokenDaoMember (DaoMember.multisig adrB) = false ∨
      isTokenDaoMember (DaoMember.token adrA 1 1 adrA []) = false) ∧
    compareAddresses (some (DaoMember.multisig adrB).address) none = false ∧
    compareAddresses
      (some (DaoMember.token adrA 1 1 adrA []).address) none = false ∧
    sortDaoMembers none none (DaoMember.multisig adrB)
        (DaoMember.token adrA 1 1 adrA []) =
      if strGt (DaoMember.multisig adrB).address
          (DaoMember.token adrA 1 1 adrA []).address then 1 else -1 :=
  ⟨by decide, by decide, by decide,
   C6_amended_basic_fallback none none (DaoMember.multisig adrB)
     (DaoMember.token adrA 1 1 adrA []) (by decide) (by decide) (by decide)⟩
